import Mathlib

/-!
# BLE scanner control core (btif/src/btif_ble_scanner.cc)

A shallow embedding of the scanner interface: the status translation table, the
seen-device cache, the scan-result processing, and the dispatch of every public
operation as a unit of work posted to the stack (BTA) thread together with its
completion continuation.

Conventions of the embedding
* `uint8_t` values are `Nat`, `int` values are `Int`; a narrowing conversion is
  written explicitly (`uint8`).
* a pointer to bytes is a function from the offset to the byte stored there.
* a closure built with `base::Bind` is a partial application.
* `do_in_bta_thread` appends a task to the queue of the stack thread;
  `do_in_jni_thread` yields the list of tasks posted to the client (JNI) thread.
* enumerators, macros and helpers declared in headers outside this file are
  fields of `Env`; theorems hold for every `Env` whose `case` labels are distinct.
-/

namespace BleScanner

/-! ## Values declared outside the file -/

/-- The enumeration `btgattc_error_t` of API level status values, in the order
of its declaration. -/
inductive btgattc_error_t where
  | BT_GATTC_COMMAND_SUCCESS
  | BT_GATTC_COMMAND_STARTED
  | BT_GATTC_COMMAND_BUSY
  | BT_GATTC_COMMAND_STORED
  | BT_GATTC_NO_RESOURCES
  | BT_GATTC_MODE_UNSUPPORTED
  | BT_GATTC_ILLEGAL_VALUE
  | BT_GATTC_INCORRECT_STATE
  | BT_GATTC_UNKNOWN_ADDR
  | BT_GATTC_DEVICE_TIMEOUT
  | BT_GATTC_INVALID_CONTROLLER_OUTPUT
  | BT_GATTC_SECURITY_ERROR
  | BT_GATTC_DELAYED_ENCRYPTION_CHECK
  | BT_GATTC_ERR_PROCESSING
  deriving DecidableEq, Repr

/-- The integer value of an enumerator of `btgattc_error_t` (enumerators count
from zero in declaration order). -/
def btgattc_error_t.toNat : btgattc_error_t → Nat
  | .BT_GATTC_COMMAND_SUCCESS => 0
  | .BT_GATTC_COMMAND_STARTED => 1
  | .BT_GATTC_COMMAND_BUSY => 2
  | .BT_GATTC_COMMAND_STORED => 3
  | .BT_GATTC_NO_RESOURCES => 4
  | .BT_GATTC_MODE_UNSUPPORTED => 5
  | .BT_GATTC_ILLEGAL_VALUE => 6
  | .BT_GATTC_INCORRECT_STATE => 7
  | .BT_GATTC_UNKNOWN_ADDR => 8
  | .BT_GATTC_DEVICE_TIMEOUT => 9
  | .BT_GATTC_INVALID_CONTROLLER_OUTPUT => 10
  | .BT_GATTC_SECURITY_ERROR => 11
  | .BT_GATTC_DELAYED_ENCRYPTION_CHECK => 12
  | .BT_GATTC_ERR_PROCESSING => 13

/-- A pointer to bytes: the byte found at each offset from the pointer. -/
abbrev BytePtr := Nat → Nat

/-- The 128-bit UUID record `bt_uuid_t` (its bytes). -/
abbrev bt_uuid_t := List Nat

/-- The stack level UUID record `tBT_UUID` (its bytes). -/
abbrev tBT_UUID := List Nat

/-- The stack level condition mask `tBTM_BLE_PF_COND_MASK` (its bytes). -/
abbrev tBTM_BLE_PF_COND_MASK := List Nat

/-- Enumerators, macro constants and helper functions that the file uses and
that are declared elsewhere (stack and HAL headers). -/
structure Env where
  BTM_SUCCESS : Nat
  BTM_CMD_STARTED : Nat
  BTM_BUSY : Nat
  BTM_NO_RESOURCES : Nat
  BTM_MODE_UNSUPPORTED : Nat
  BTM_ILLEGAL_VALUE : Nat
  BTM_WRONG_MODE : Nat
  BTM_UNKNOWN_ADDR : Nat
  BTM_DEVICE_TIMEOUT : Nat
  BTM_BAD_VALUE_RET : Nat
  BTM_ERR_PROCESSING : Nat
  BTM_NOT_AUTHORIZED : Nat
  BTM_DEV_RESET : Nat
  BTM_CMD_STORED : Nat
  BTM_ILLEGAL_ACTION : Nat
  BTM_DELAY_CHECK : Nat
  BTM_SCO_BAD_LENGTH : Nat
  BTM_SUCCESS_NO_SECURITY : Nat
  BTM_FAILED_ON_SECURITY : Nat
  BTM_REPEATED_ATTEMPTS : Nat
  BTM_MODE4_LEVEL4_NOT_SUPPORTED : Nat
  BTM_BLE_PF_ADDR_FILTER : Nat
  BTM_BLE_PF_SRVC_DATA : Nat
  BTM_BLE_PF_SRVC_UUID : Nat
  BTM_BLE_PF_SRVC_SOL_UUID : Nat
  BTM_BLE_PF_LOCAL_NAME : Nat
  BTM_BLE_PF_MANU_DATA : Nat
  BTM_BLE_PF_SRVC_DATA_PATTERN : Nat
  BTM_BLE_PF_TYPE_ALL : Nat
  BTM_BLE_PF_LOGIC_AND : Nat
  BTM_BLE_SCAN_MODE_ACTI : Nat
  BLE_ADDR_RANDOM : Nat
  BTM_EIR_COMPLETE_LOCAL_NAME_TYPE : Nat
  BT_EIR_SHORTENED_LOCAL_NAME_TYPE : Nat
  BTGATT_MAX_ATTR_LEN : Nat
  BTA_DM_INQ_RES_EVT : Nat
  BTA_DM_INQ_CMPL_EVT : Nat
  BT_PROPERTY_TYPE_OF_DEVICE : Nat
  /-- The value of `sizeof(bt_device_type_t)`. -/
  sizeof_bt_device_type_t : Nat
  /-- The conversion of an `int` to the unsigned type `tBTM_BLE_REF_VALUE`. -/
  to_tBTM_BLE_REF_VALUE : Int → Nat
  /-- The helper `BTM_CheckEirData(p_eir, type, &len)`: the `len` bytes of the
  first field of the given type, or `none` for a NULL result. -/
  BTM_CheckEirData : BytePtr → Nat → Option (List Nat)
  btif_to_bta_uuid : bt_uuid_t → tBT_UUID
  btif_to_bta_uuid_mask : bt_uuid_t → bt_uuid_t → tBTM_BLE_PF_COND_MASK
  btif_gatt_move_track_adv_data : List Nat → List Nat

/-- The `case` labels of the switch in `btif_gattc_translate_btm_status`, in
source order. -/
def Env.statusLabels (K : Env) : List Nat :=
  [K.BTM_SUCCESS, K.BTM_SUCCESS_NO_SECURITY, K.BTM_CMD_STARTED, K.BTM_BUSY,
   K.BTM_CMD_STORED, K.BTM_NO_RESOURCES, K.BTM_MODE_UNSUPPORTED, K.BTM_WRONG_MODE,
   K.BTM_MODE4_LEVEL4_NOT_SUPPORTED, K.BTM_ILLEGAL_VALUE, K.BTM_SCO_BAD_LENGTH,
   K.BTM_UNKNOWN_ADDR, K.BTM_DEVICE_TIMEOUT, K.BTM_FAILED_ON_SECURITY,
   K.BTM_REPEATED_ATTEMPTS, K.BTM_NOT_AUTHORIZED, K.BTM_DEV_RESET,
   K.BTM_ILLEGAL_ACTION, K.BTM_BAD_VALUE_RET, K.BTM_DELAY_CHECK,
   K.BTM_ERR_PROCESSING]

/-- The `case` labels of the switch in `ScanFilterAddRemove`, in source order. -/
def Env.filterLabels (K : Env) : List Nat :=
  [K.BTM_BLE_PF_ADDR_FILTER, K.BTM_BLE_PF_SRVC_DATA, K.BTM_BLE_PF_SRVC_UUID,
   K.BTM_BLE_PF_SRVC_SOL_UUID, K.BTM_BLE_PF_LOCAL_NAME, K.BTM_BLE_PF_MANU_DATA,
   K.BTM_BLE_PF_SRVC_DATA_PATTERN]

/-- What the C compiler requires of the enumerators: the labels of a switch are
pairwise distinct, and the filter types fit the `uint8_t` they are stored in. -/
def Env.WF (K : Env) : Prop :=
  K.statusLabels.Nodup ∧ K.filterLabels.Nodup ∧ ∀ x ∈ K.filterLabels, x < 256

instance (K : Env) : Decidable K.WF := by
  unfold Env.WF; infer_instance

/-! ## Status translation (lines 102-154) -/

/-- The function `btif_gattc_translate_btm_status`: the switch, one test per
group of `case` labels in source order, the last one the `default`. -/
def btif_gattc_translate_btm_status (K : Env) (status : Nat) : btgattc_error_t :=
  if status = K.BTM_SUCCESS ∨ status = K.BTM_SUCCESS_NO_SECURITY then
    .BT_GATTC_COMMAND_SUCCESS
  else if status = K.BTM_CMD_STARTED then
    .BT_GATTC_COMMAND_STARTED
  else if status = K.BTM_BUSY then
    .BT_GATTC_COMMAND_BUSY
  else if status = K.BTM_CMD_STORED then
    .BT_GATTC_COMMAND_STORED
  else if status = K.BTM_NO_RESOURCES then
    .BT_GATTC_NO_RESOURCES
  else if status = K.BTM_MODE_UNSUPPORTED ∨ status = K.BTM_WRONG_MODE
      ∨ status = K.BTM_MODE4_LEVEL4_NOT_SUPPORTED then
    .BT_GATTC_MODE_UNSUPPORTED
  else if status = K.BTM_ILLEGAL_VALUE ∨ status = K.BTM_SCO_BAD_LENGTH then
    .BT_GATTC_ILLEGAL_VALUE
  else if status = K.BTM_UNKNOWN_ADDR then
    .BT_GATTC_UNKNOWN_ADDR
  else if status = K.BTM_DEVICE_TIMEOUT then
    .BT_GATTC_DEVICE_TIMEOUT
  else if status = K.BTM_FAILED_ON_SECURITY ∨ status = K.BTM_REPEATED_ATTEMPTS
      ∨ status = K.BTM_NOT_AUTHORIZED then
    .BT_GATTC_SECURITY_ERROR
  else if status = K.BTM_DEV_RESET ∨ status = K.BTM_ILLEGAL_ACTION then
    .BT_GATTC_INCORRECT_STATE
  else if status = K.BTM_BAD_VALUE_RET then
    .BT_GATTC_INVALID_CONTROLLER_OUTPUT
  else if status = K.BTM_DELAY_CHECK then
    .BT_GATTC_DELAYED_ENCRYPTION_CHECK
  else
    .BT_GATTC_ERR_PROCESSING

/-! ## Device addresses and the seen-device cache (lines 67-100) -/

/-- The constant `BD_ADDR_LEN`, the number of bytes of a device address. -/
def BD_ADDR_LEN : Nat := 6

/-- The record `bt_bdaddr_t`: the array `address` of `BD_ADDR_LEN` bytes. -/
structure bt_bdaddr_t where
  address : List Nat
  deriving DecidableEq, Repr

/-- The library call `memcpy(dst, src, n)` into an array of exactly `n` bytes:
the bytes `src[0] .. src[n-1]`. -/
def memcpy (src : List Nat) (n : Nat) : List Nat :=
  (List.range n).map (fun i => src.getD i 0)

/-- The library call `memcmp(x, y, n)`: zero when the first `n` bytes agree,
otherwise the difference of the first pair of bytes that differ. -/
def memcmp (x y : List Nat) (n : Nat) : Int :=
  match (List.range n).find? (fun i => x.getD i 0 != y.getD i 0) with
  | some i => (x.getD i 0 : Int) - (y.getD i 0 : Int)
  | none => 0

/-- The conversion of an `int` to `size_t`. -/
def size_t (x : Int) : Nat := (x % (2 ^ 64 : Int)).toNat

/-- The specialisation `std::hash<bt_bdaddr_t>::operator()`: the sum of the six
address bytes. -/
def hash (f : bt_bdaddr_t) : Nat :=
  f.address.getD 0 0 + f.address.getD 1 0 + f.address.getD 2 0 + f.address.getD 3 0 +
    f.address.getD 4 0 + f.address.getD 5 0

/-- The specialisation `std::equal_to<bt_bdaddr_t>::operator()`: it returns the
result of `memcmp` as a `size_t`. -/
def equal_to (x y : bt_bdaddr_t) : Nat :=
  size_t (memcmp x.address y.address BD_ADDR_LEN)

/-- The container `std::unordered_set<bt_bdaddr_t>`: its nodes, newest first. -/
abbrev unordered_set := List bt_bdaddr_t

/-- The member `count(k)` of the standard hash table with unique keys. The
library looks `k` up among the nodes of its bucket and takes a node for `k` when
the key-equality functor, converted to `bool`, answers true for the node and
`k`: the count is 1 when some stored node has the hash of `k` and the functor
answers non-zero, and 0 otherwise. -/
def unordered_set.count (s : unordered_set) (k : bt_bdaddr_t) : Nat :=
  if s.any (fun e => hash e == hash k && equal_to e k != 0) then 1 else 0

/-- The member `insert(k)` of the standard hash table with unique keys: `k` is
stored unless the lookup already finds a node. -/
def unordered_set.insert (s : unordered_set) (k : bt_bdaddr_t) : unordered_set :=
  if s.count k != 0 then s else k :: s

/-- The member `clear()`. -/
def unordered_set.clear (_s : unordered_set) : unordered_set := []

/-- The function `btif_gattc_add_remote_bdaddr` on the global `p_dev_cb`. -/
def btif_gattc_add_remote_bdaddr (p_bda : List Nat) (_addr_type : Nat)
    (p_dev_cb : unordered_set) : unordered_set :=
  let bd_addr : bt_bdaddr_t := { address := memcpy p_bda BD_ADDR_LEN }
  p_dev_cb.insert bd_addr

/-- The function `btif_gattc_find_bdaddr` on the global `p_dev_cb`. -/
def btif_gattc_find_bdaddr (p_bda : List Nat) (p_dev_cb : unordered_set) : Bool :=
  let bd_addr : bt_bdaddr_t := { address := memcpy p_bda BD_ADDR_LEN }
  p_dev_cb.count bd_addr != 0

/-- The function `btif_gattc_init_dev_cb` on the global `p_dev_cb`. -/
def btif_gattc_init_dev_cb (p_dev_cb : unordered_set) : unordered_set :=
  p_dev_cb.clear

/-! ## Callbacks to the client (lines 56-65, 183-216) -/

/-- The table `btgatt_scanner_callbacks_t`: for each callback, whether the
function pointer is non-NULL. -/
structure btgatt_scanner_callbacks_t where
  scan_result_cb : Bool
  batchscan_cfg_storage_cb : Bool
  batchscan_enb_disable_cb : Bool
  batchscan_reports_cb : Bool
  batchscan_threshold_cb : Bool
  track_adv_event_cb : Bool
  scan_parameter_setup_completed_cb : Bool
  scan_filter_cfg_cb : Bool
  scan_filter_param_cb : Bool
  scan_filter_status_cb : Bool
  deriving DecidableEq, Repr

/-- The table `btgatt_callbacks_t`, of which this file uses `scanner`. -/
structure btgatt_callbacks_t where
  scanner : btgatt_scanner_callbacks_t
  deriving DecidableEq, Repr

/-- The client callback of `RegisterScanner`, an object this file only hands
on: it is identified by a number. -/
abbrev RegisterCallback := Nat

/-- A unit of work for the client (JNI) thread: a callback bound to the
arguments given to `Bind`, each with the type it has at the bind. -/
inductive JniTask where
  | scan_parameter_setup_completed_cb (client_if : Nat) (status : btgattc_error_t)
  | scan_filter_cfg_cb (action client_if status filt_type avbl_space : Nat)
  | scan_filter_param_cb (action_type ref_value status avbl_space : Nat)
  | scan_filter_status_cb (action ref_value status : Nat)
  | batchscan_threshold_cb (ref_value : Nat)
  | batchscan_reports_cb (client_id : Int) (status report_format num_records : Nat)
      (data : List Nat)
  | batchscan_cfg_storage_cb (client_if : Int) (status : Nat)
  | batchscan_enb_disable_cb (action : Int) (client_if : Int) (status : Nat)
  | track_adv_event_cb (btif_scan_track_cb : List Nat)
  | register_cb (cb : RegisterCallback) (client_id status : Nat)
  | bta_scan_results_cb_impl (bd_addr : bt_bdaddr_t) (device_type : Nat) (rssi : Int)
      (addr_type : Nat) (value : List Nat)
  deriving DecidableEq, Repr

/-- The function `do_in_jni_thread`: the task is posted to the client thread. -/
def do_in_jni_thread (task : JniTask) : List JniTask := [task]

/-- The macro `SCAN_CBACK_IN_JNI(P_CBACK, ...)`: when the callback table and the
callback are non-NULL the bound callback is posted to the client thread;
otherwise only an error is logged. -/
def SCAN_CBACK_IN_JNI (bt_gatt_callbacks : Option btgatt_callbacks_t)
    (P_CBACK : btgatt_scanner_callbacks_t → Bool) (task : JniTask) : List JniTask :=
  match bt_gatt_callbacks with
  | some cbs => if P_CBACK cbs.scanner then do_in_jni_thread task else []
  | none => []

/-- The function `bta_scan_param_setup_cb`. -/
def bta_scan_param_setup_cb (K : Env) (bt_gatt_callbacks : Option btgatt_callbacks_t)
    (client_if : Nat) (status : Nat) : List JniTask :=
  SCAN_CBACK_IN_JNI bt_gatt_callbacks (·.scan_parameter_setup_completed_cb)
    (.scan_parameter_setup_completed_cb client_if (btif_gattc_translate_btm_status K status))

/-- The function `bta_scan_filt_cfg_cb`. -/
def bta_scan_filt_cfg_cb (bt_gatt_callbacks : Option btgatt_callbacks_t)
    (filt_type : Nat) (client_if : Nat) (avbl_space : Nat) (action : Nat) (status : Nat) :
    List JniTask :=
  SCAN_CBACK_IN_JNI bt_gatt_callbacks (·.scan_filter_cfg_cb)
    (.scan_filter_cfg_cb action client_if status filt_type avbl_space)

/-- The function `bta_scan_filt_param_setup_cb`. -/
def bta_scan_filt_param_setup_cb (bt_gatt_callbacks : Option btgatt_callbacks_t)
    (ref_value : Nat) (avbl_space : Nat) (action_type : Nat) (status : Nat) : List JniTask :=
  SCAN_CBACK_IN_JNI bt_gatt_callbacks (·.scan_filter_param_cb)
    (.scan_filter_param_cb action_type ref_value status avbl_space)

/-- The function `bta_scan_filt_status_cb`. -/
def bta_scan_filt_status_cb (bt_gatt_callbacks : Option btgatt_callbacks_t)
    (ref_value : Nat) (action : Nat) (status : Nat) : List JniTask :=
  SCAN_CBACK_IN_JNI bt_gatt_callbacks (·.scan_filter_status_cb)
    (.scan_filter_status_cb action ref_value status)

/-- The function `bta_batch_scan_threshold_cb`. -/
def bta_batch_scan_threshold_cb (bt_gatt_callbacks : Option btgatt_callbacks_t)
    (ref_value : Nat) : List JniTask :=
  SCAN_CBACK_IN_JNI bt_gatt_callbacks (·.batchscan_threshold_cb)
    (.batchscan_threshold_cb ref_value)

/-- The function `bta_batch_scan_reports_cb`. -/
def bta_batch_scan_reports_cb (bt_gatt_callbacks : Option btgatt_callbacks_t)
    (client_id : Int) (status : Nat) (report_format : Nat) (num_records : Nat)
    (data : List Nat) : List JniTask :=
  SCAN_CBACK_IN_JNI bt_gatt_callbacks (·.batchscan_reports_cb)
    (.batchscan_reports_cb client_id status report_format num_records data)

/-- The function `bta_track_adv_event_cb`. -/
def bta_track_adv_event_cb (K : Env) (bt_gatt_callbacks : Option btgatt_callbacks_t)
    (p_track_adv_data : List Nat) : List JniTask :=
  let btif_scan_track_cb := K.btif_gatt_move_track_adv_data p_track_adv_data
  SCAN_CBACK_IN_JNI bt_gatt_callbacks (·.track_adv_event_cb)
    (.track_adv_event_cb btif_scan_track_cb)

/-! ## Scan results (lines 218-292) -/

/-- The record `bt_property_t` as filled by `BTIF_STORAGE_FILL_PROPERTY`. -/
structure bt_property_t where
  type : Nat
  len : Nat
  val : Nat
  deriving DecidableEq, Repr

/-- A call that leaves this file from the client thread: the property store,
the name hand-off, and the scan result callback of the client. -/
inductive Effect where
  | btif_dm_update_ble_remote_properties (bd_addr : List Nat) (bd_name : List Nat)
      (dev_type : Nat)
  | btif_storage_set_remote_device_property (remote_bd_addr : bt_bdaddr_t)
      (property : bt_property_t)
  | btif_storage_set_remote_addr_type (remote_bd_addr : bt_bdaddr_t) (addr_type : Nat)
  | scan_result_cb (bda : bt_bdaddr_t) (rssi : Int) (adv_data : List Nat)
  deriving DecidableEq, Repr

/-- The macro `HAL_CBACK(P_CB, P_CBACK, ...)`: the callback is called when the
table and the callback are non-NULL; otherwise only an error is logged. -/
def HAL_CBACK (P_CB : Option btgatt_callbacks_t) (P_CBACK : btgatt_callbacks_t → Bool)
    (call : Effect) : List Effect :=
  match P_CB with
  | some cbs => if P_CBACK cbs then [call] else []
  | none => []

/-- The member `data()` of a byte vector: a pointer to its elements. -/
def vector_data (value : List Nat) : BytePtr := fun i => value.getD i 0

/-- The function `bta_scan_results_cb_impl`, run on the client thread: the new
content of `p_dev_cb` and the outgoing calls it makes, in order. -/
def bta_scan_results_cb_impl (K : Env) (bt_gatt_callbacks : Option btgatt_callbacks_t)
    (bd_addr : bt_bdaddr_t) (device_type : Nat) (rssi : Int) (addr_type : Nat)
    (value : List Nat) (p_dev_cb : unordered_set) : unordered_set × List Effect :=
  let p_eir_remote_name :=
    K.BTM_CheckEirData (vector_data value) K.BTM_EIR_COMPLETE_LOCAL_NAME_TYPE
  let p_eir_remote_name :=
    if p_eir_remote_name.isNone then
      K.BTM_CheckEirData (vector_data value) K.BT_EIR_SHORTENED_LOCAL_NAME_TYPE
    else p_eir_remote_name
  let update : unordered_set × List Effect :=
    if addr_type ≠ K.BLE_ADDR_RANDOM ∨ p_eir_remote_name.isSome then
      if !(btif_gattc_find_bdaddr bd_addr.address p_dev_cb) then
        let p_dev_cb := btif_gattc_add_remote_bdaddr bd_addr.address addr_type p_dev_cb
        match p_eir_remote_name with
        | some name =>
          let bdname := name ++ [0]
          (p_dev_cb,
            [Effect.btif_dm_update_ble_remote_properties bd_addr.address bdname device_type])
        | none => (p_dev_cb, [])
      else (p_dev_cb, [])
    else (p_dev_cb, [])
  let dev_type := device_type
  let properties : bt_property_t :=
    { type := K.BT_PROPERTY_TYPE_OF_DEVICE, len := K.sizeof_bt_device_type_t, val := dev_type }
  (update.1,
    update.2 ++
      [Effect.btif_storage_set_remote_device_property bd_addr properties,
       Effect.btif_storage_set_remote_addr_type bd_addr addr_type] ++
      HAL_CBACK bt_gatt_callbacks (·.scanner.scan_result_cb)
        (Effect.scan_result_cb bd_addr rssi value))

/-- The member `inq_res` of the event data `tBTA_DM_SEARCH`. -/
structure tBTA_DM_INQ_RES where
  bd_addr : List Nat
  device_type : Nat
  rssi : Int
  ble_addr_type : Nat
  p_eir : Option BytePtr
  remt_name_not_required : Bool

/-- The event data `tBTA_DM_SEARCH`, of which the function reads `inq_res`. -/
structure tBTA_DM_SEARCH where
  inq_res : tBTA_DM_INQ_RES

/-- The member `insert(begin(), first, first + n)` of a byte vector: the `n`
bytes at `first` are placed before the elements the vector already has. -/
def vector_insert_begin (value : List Nat) (first : BytePtr) (n : Nat) : List Nat :=
  (List.range n).map first ++ value

/-- The function `bdcpy(dst, src)`: a copy of the `BD_ADDR_LEN` address bytes. -/
def bdcpy (src : List Nat) : List Nat := memcpy src BD_ADDR_LEN

/-- The function `bta_scan_results_cb`, run on the stack thread: the event
data after the call and the tasks posted to the client thread. -/
def bta_scan_results_cb (K : Env) (event : Nat) (p_data : tBTA_DM_SEARCH) :
    tBTA_DM_SEARCH × List JniTask :=
  if event = K.BTA_DM_INQ_CMPL_EVT then (p_data, [])
  else if event ≠ K.BTA_DM_INQ_RES_EVT then (p_data, [])
  else
    let value : List Nat := List.replicate K.BTGATT_MAX_ATTR_LEN 0
    let filled : List Nat × tBTA_DM_SEARCH :=
      match p_data.inq_res.p_eir with
      | some p_eir =>
        let value := vector_insert_begin value p_eir 62
        if (K.BTM_CheckEirData p_eir K.BTM_EIR_COMPLETE_LOCAL_NAME_TYPE).isSome then
          (value, { p_data with
            inq_res := { p_data.inq_res with remt_name_not_required := true } })
        else (value, p_data)
      | none => (value, p_data)
    let bdaddr : bt_bdaddr_t := { address := bdcpy filled.2.inq_res.bd_addr }
    (filled.2,
      do_in_jni_thread
        (JniTask.bta_scan_results_cb_impl bdaddr filled.2.inq_res.device_type
          filled.2.inq_res.rssi filled.2.inq_res.ble_addr_type filled.1))

/-! ## The public interface (lines 304-517) -/

/-- The conversion of an `int` to `uint8_t`. -/
def uint8 (x : Int) : Nat := (x % 256).toNat

/-- The record `tBLE_BD_ADDR`. -/
structure tBLE_BD_ADDR where
  type : Nat
  bda : List Nat
  deriving DecidableEq, Repr

/-- The record `btgatt_filt_param_setup_t`; the file reads `dely_mode` only and
hands the record on. -/
structure btgatt_filt_param_setup_t where
  dely_mode : Nat
  deriving DecidableEq, Repr

/-- The completion callback type `tBTM_BLE_PF_CFG_CBACK`, called by the stack
with `(avbl_space, action, status)`. -/
abbrev tBTM_BLE_PF_CFG_CBACK := Nat → Nat → Nat → List JniTask

/-- A unit of work for the stack (BTA) thread: the stack function bound to its
arguments, a continuation being the function the stack calls on completion.
The event sink `bta_gatts_cback` (lines 156-181), a constant passed to
`BTA_GATTC_AppRegister`, is not part of the task. -/
inductive BtaTask where
  | BTA_GATTC_AppRegister (cb : Nat → Nat → List JniTask)
  | BTA_GATTC_AppDeregister (scanner_id : Int)
  | BTA_DmBleObserve (start : Bool) (duration : Nat)
      (p_results_cb : Option (Nat → tBTA_DM_SEARCH → tBTA_DM_SEARCH × List JniTask))
  | BTM_BleTrackAdvertiser (p_track_cback : List Nat → List JniTask) (ref_value : Nat)
  | BTM_BleAdvFilterParamSetup (action filt_index : Nat)
      (p_filt_params : Option btgatt_filt_param_setup_t) (cb : Nat → Nat → Nat → List JniTask)
  | BTM_LE_PF_addr_filter (action filt_index : Int) (addr : tBLE_BD_ADDR)
      (cb : tBTM_BLE_PF_CFG_CBACK)
  | BTM_LE_PF_srvc_data (action filt_index : Int)
  | BTM_LE_PF_uuid_filter (action filt_index filter_type : Int) (uuid : tBT_UUID)
      (cond_logic : Nat) (p_uuid_mask : Option tBTM_BLE_PF_COND_MASK)
      (cb : tBTM_BLE_PF_CFG_CBACK)
  | BTM_LE_PF_local_name (action filt_index : Int) (name : List Nat)
      (cb : tBTM_BLE_PF_CFG_CBACK)
  | BTM_LE_PF_manu_data (action filt_index company_id company_id_mask : Int)
      (data mask : List Nat) (cb : tBTM_BLE_PF_CFG_CBACK)
  | BTM_LE_PF_srvc_data_pattern (action filt_index : Int) (data mask : List Nat)
      (cb : tBTM_BLE_PF_CFG_CBACK)
  | BTM_LE_PF_clear (filt_index : Int) (cb : tBTM_BLE_PF_CFG_CBACK)
  | BTM_BleEnableDisableFilterFeature (enable : Nat) (p_stat_cback : Nat → Nat → List JniTask)
  | BTM_BleSetScanParams (client_if scan_interval scan_window : Int) (scan_mode : Nat)
      (scan_setup_status_cback : Nat → Nat → List JniTask)
  | BTM_BleSetStorageConfig (batch_scan_full_max batch_scan_trunc_max
      batch_scan_notify_threshold : Nat) (cb : Nat → List JniTask)
      (p_thres_cback : Nat → List JniTask) (ref_value : Nat)
  | BTM_BleEnableBatchScan (scan_mode scan_interval scan_window discard_rule addr_type : Int)
      (cb : Nat → List JniTask)
  | BTM_BleDisableBatchScan (cb : Nat → List JniTask)
  | BTM_BleReadScanReports (scan_mode : Nat)
      (cb : Nat → Nat → Nat → List Nat → List JniTask)

/-- The globals the interface works on: the seen-device cache `p_dev_cb` and
the queue of the stack thread (oldest task first). -/
structure State where
  p_dev_cb : unordered_set
  bta_thread : List BtaTask

/-- The function `do_in_bta_thread(FROM_HERE, task)`: the task is appended to
the queue of the stack thread. -/
def do_in_bta_thread (task : BtaTask) (s : State) : State :=
  { s with bta_thread := s.bta_thread ++ [task] }

/-- The method `RegisterScanner`. -/
def RegisterScanner (cb : RegisterCallback) (s : State) : State :=
  do_in_bta_thread
    (.BTA_GATTC_AppRegister
      (fun client_id status => do_in_jni_thread (JniTask.register_cb cb client_id status))) s

/-- The method `Unregister`. -/
def Unregister (scanner_id : Int) (s : State) : State :=
  do_in_bta_thread (.BTA_GATTC_AppDeregister scanner_id) s

/-- The method `Scan`. -/
def Scan (K : Env) (start : Bool) (s : State) : State :=
  if !start then
    do_in_bta_thread (.BTA_DmBleObserve false 0 none) s
  else
    let s := { s with p_dev_cb := btif_gattc_init_dev_cb s.p_dev_cb }
    do_in_bta_thread (.BTA_DmBleObserve true 0 (some (bta_scan_results_cb K))) s

/-- The method `ScanFilterParamSetup`. -/
def ScanFilterParamSetup (K : Env) (bt_gatt_callbacks : Option btgatt_callbacks_t)
    (client_if action filt_index : Nat) (filt_param : Option btgatt_filt_param_setup_t)
    (s : State) : State :=
  let s :=
    if filt_param.isSome ∧ (filt_param.map (·.dely_mode)) = some 1 then
      do_in_bta_thread
        (.BTM_BleTrackAdvertiser (bta_track_adv_event_cb K bt_gatt_callbacks) client_if) s
    else s
  do_in_bta_thread
    (.BTM_BleAdvFilterParamSetup action filt_index filt_param
      (bta_scan_filt_param_setup_cb bt_gatt_callbacks client_if)) s

/-- The method `ScanFilterAddRemove`. The pointers `p_uuid` and `bd_addr`, which
the method dereferences without a test, are given by the values they point to;
`p_uuid_mask`, which it tests against NULL, is optional. -/
def ScanFilterAddRemove (K : Env) (bt_gatt_callbacks : Option btgatt_callbacks_t)
    (client_if action filt_type filt_index company_id company_id_mask : Int)
    (p_uuid : bt_uuid_t) (p_uuid_mask : Option bt_uuid_t) (bd_addr : bt_bdaddr_t)
    (addr_type : Int) (data mask : List Nat) (s : State) : State :=
  if data.length ≠ mask.length ∧ data.length ≠ 0 ∧ mask.length ≠ 0 then s
  else if filt_type = K.BTM_BLE_PF_ADDR_FILTER then
    let target_addr : tBLE_BD_ADDR := { bda := bdcpy bd_addr.address, type := uint8 addr_type }
    do_in_bta_thread
      (.BTM_LE_PF_addr_filter action filt_index target_addr
        (bta_scan_filt_cfg_cb bt_gatt_callbacks (uint8 filt_type) (uint8 client_if))) s
  else if filt_type = K.BTM_BLE_PF_SRVC_DATA then
    do_in_bta_thread (.BTM_LE_PF_srvc_data action filt_index) s
  else if filt_type = K.BTM_BLE_PF_SRVC_UUID ∨ filt_type = K.BTM_BLE_PF_SRVC_SOL_UUID then
    let bt_uuid := K.btif_to_bta_uuid p_uuid
    match p_uuid_mask with
    | none =>
      do_in_bta_thread
        (.BTM_LE_PF_uuid_filter action filt_index filt_type bt_uuid K.BTM_BLE_PF_LOGIC_AND none
          (bta_scan_filt_cfg_cb bt_gatt_callbacks (uint8 filt_type) (uint8 client_if))) s
    | some uuid_mask =>
      let mask := K.btif_to_bta_uuid_mask uuid_mask p_uuid
      do_in_bta_thread
        (.BTM_LE_PF_uuid_filter action filt_index filt_type bt_uuid K.BTM_BLE_PF_LOGIC_AND
          (some mask)
          (bta_scan_filt_cfg_cb bt_gatt_callbacks (uint8 filt_type) (uint8 client_if))) s
  else if filt_type = K.BTM_BLE_PF_LOCAL_NAME then
    do_in_bta_thread
      (.BTM_LE_PF_local_name action filt_index data
        (bta_scan_filt_cfg_cb bt_gatt_callbacks (uint8 filt_type) (uint8 client_if))) s
  else if filt_type = K.BTM_BLE_PF_MANU_DATA then
    do_in_bta_thread
      (.BTM_LE_PF_manu_data action filt_index company_id company_id_mask data mask
        (bta_scan_filt_cfg_cb bt_gatt_callbacks (uint8 filt_type) (uint8 client_if))) s
  else if filt_type = K.BTM_BLE_PF_SRVC_DATA_PATTERN then
    do_in_bta_thread
      (.BTM_LE_PF_srvc_data_pattern action filt_index data mask
        (bta_scan_filt_cfg_cb bt_gatt_callbacks (uint8 filt_type) (uint8 client_if))) s
  else s

/-- The method `ScanFilterClear`. -/
def ScanFilterClear (K : Env) (bt_gatt_callbacks : Option btgatt_callbacks_t)
    (client_if filter_index : Int) (s : State) : State :=
  do_in_bta_thread
    (.BTM_LE_PF_clear filter_index
      (bta_scan_filt_cfg_cb bt_gatt_callbacks (uint8 K.BTM_BLE_PF_TYPE_ALL)
        (uint8 client_if))) s

/-- The method `ScanFilterEnable`. -/
def ScanFilterEnable (K : Env) (bt_gatt_callbacks : Option btgatt_callbacks_t)
    (client_if : Int) (enable : Bool) (s : State) : State :=
  let action : Nat := if enable then 1 else 0
  do_in_bta_thread
    (.BTM_BleEnableDisableFilterFeature action
      (bta_scan_filt_status_cb bt_gatt_callbacks (K.to_tBTM_BLE_REF_VALUE client_if))) s

/-- The method `SetScanParameters`. -/
def SetScanParameters (K : Env) (bt_gatt_callbacks : Option btgatt_callbacks_t)
    (client_if scan_interval scan_window : Int) (s : State) : State :=
  do_in_bta_thread
    (.BTM_BleSetScanParams client_if scan_interval scan_window K.BTM_BLE_SCAN_MODE_ACTI
      (bta_scan_param_setup_cb K bt_gatt_callbacks)) s

/-- The lambda bound in `BatchscanConfigStorage`. -/
def BatchscanConfigStorage_cb (bt_gatt_callbacks : Option btgatt_callbacks_t)
    (client_if : Int) (status : Nat) : List JniTask :=
  SCAN_CBACK_IN_JNI bt_gatt_callbacks (·.batchscan_cfg_storage_cb)
    (.batchscan_cfg_storage_cb client_if status)

/-- The method `BatchscanConfigStorage`. -/
def BatchscanConfigStorage (K : Env) (bt_gatt_callbacks : Option btgatt_callbacks_t)
    (client_if batch_scan_full_max batch_scan_trunc_max batch_scan_notify_threshold : Int)
    (s : State) : State :=
  let cb := BatchscanConfigStorage_cb bt_gatt_callbacks client_if
  do_in_bta_thread
    (.BTM_BleSetStorageConfig (uint8 batch_scan_full_max) (uint8 batch_scan_trunc_max)
      (uint8 batch_scan_notify_threshold) cb (bta_batch_scan_threshold_cb bt_gatt_callbacks)
      (K.to_tBTM_BLE_REF_VALUE client_if)) s

/-- The lambda bound in `BatchscanEnable`. -/
def BatchscanEnable_cb (bt_gatt_callbacks : Option btgatt_callbacks_t)
    (client_if : Int) (status : Nat) : List JniTask :=
  SCAN_CBACK_IN_JNI bt_gatt_callbacks (·.batchscan_enb_disable_cb)
    (.batchscan_enb_disable_cb 1 client_if status)

/-- The method `BatchscanEnable`. -/
def BatchscanEnable (bt_gatt_callbacks : Option btgatt_callbacks_t)
    (client_if scan_mode scan_interval scan_window addr_type discard_rule : Int)
    (s : State) : State :=
  let cb := BatchscanEnable_cb bt_gatt_callbacks client_if
  do_in_bta_thread
    (.BTM_BleEnableBatchScan scan_mode scan_interval scan_window discard_rule addr_type cb) s

/-- The lambda bound in `BatchscanDisable`. -/
def BatchscanDisable_cb (bt_gatt_callbacks : Option btgatt_callbacks_t)
    (client_if : Int) (status : Nat) : List JniTask :=
  SCAN_CBACK_IN_JNI bt_gatt_callbacks (·.batchscan_enb_disable_cb)
    (.batchscan_enb_disable_cb 1 client_if status)

/-- The method `BatchscanDisable`. -/
def BatchscanDisable (bt_gatt_callbacks : Option btgatt_callbacks_t) (client_if : Int)
    (s : State) : State :=
  let cb := BatchscanDisable_cb bt_gatt_callbacks client_if
  do_in_bta_thread (.BTM_BleDisableBatchScan cb) s

/-- The method `BatchscanReadReports`. -/
def BatchscanReadReports (bt_gatt_callbacks : Option btgatt_callbacks_t)
    (client_if scan_mode : Int) (s : State) : State :=
  do_in_bta_thread
    (.BTM_BleReadScanReports (uint8 scan_mode)
      (bta_batch_scan_reports_cb bt_gatt_callbacks client_if)) s

/-! ## Calls of the interface and completions by the stack -/

/-- A call of one of the twelve mutating methods of the interface. -/
inductive Request where
  | RegisterScanner (cb : RegisterCallback)
  | Unregister (scanner_id : Int)
  | Scan (start : Bool)
  | ScanFilterParamSetup (client_if action filt_index : Nat)
      (filt_param : Option btgatt_filt_param_setup_t)
  | ScanFilterAddRemove (client_if action filt_type filt_index company_id
      company_id_mask : Int) (p_uuid : bt_uuid_t) (p_uuid_mask : Option bt_uuid_t)
      (bd_addr : bt_bdaddr_t) (addr_type : Int) (data mask : List Nat)
  | ScanFilterClear (client_if filter_index : Int)
  | ScanFilterEnable (client_if : Int) (enable : Bool)
  | SetScanParameters (client_if scan_interval scan_window : Int)
  | BatchscanConfigStorage (client_if batch_scan_full_max batch_scan_trunc_max
      batch_scan_notify_threshold : Int)
  | BatchscanEnable (client_if scan_mode scan_interval scan_window addr_type
      discard_rule : Int)
  | BatchscanDisable (client_if : Int)
  | BatchscanReadReports (client_if scan_mode : Int)

/-- The effect of a call on the globals: the method is run. -/
def Request.call (K : Env) (cbs : Option btgatt_callbacks_t) : Request → State → State
  | .RegisterScanner cb => BleScanner.RegisterScanner cb
  | .Unregister scanner_id => BleScanner.Unregister scanner_id
  | .Scan start => BleScanner.Scan K start
  | .ScanFilterParamSetup client_if action filt_index filt_param =>
    BleScanner.ScanFilterParamSetup K cbs client_if action filt_index filt_param
  | .ScanFilterAddRemove client_if action filt_type filt_index company_id company_id_mask
      p_uuid p_uuid_mask bd_addr addr_type data mask =>
    BleScanner.ScanFilterAddRemove K cbs client_if action filt_type filt_index company_id
      company_id_mask p_uuid p_uuid_mask bd_addr addr_type data mask
  | .ScanFilterClear client_if filter_index => BleScanner.ScanFilterClear K cbs client_if filter_index
  | .ScanFilterEnable client_if enable => BleScanner.ScanFilterEnable K cbs client_if enable
  | .SetScanParameters client_if scan_interval scan_window =>
    BleScanner.SetScanParameters K cbs client_if scan_interval scan_window
  | .BatchscanConfigStorage client_if full_max trunc_max notify_threshold =>
    BleScanner.BatchscanConfigStorage K cbs client_if full_max trunc_max notify_threshold
  | .BatchscanEnable client_if scan_mode scan_interval scan_window addr_type discard_rule =>
    BleScanner.BatchscanEnable cbs client_if scan_mode scan_interval scan_window addr_type discard_rule
  | .BatchscanDisable client_if => BleScanner.BatchscanDisable cbs client_if
  | .BatchscanReadReports client_if scan_mode => BleScanner.BatchscanReadReports cbs client_if scan_mode

/-- The tasks a call has appended to the queue of the stack thread. -/
def Request.enqueued (K : Env) (cbs : Option btgatt_callbacks_t) (r : Request) (s : State) :
    List BtaTask :=
  (r.call K cbs s).bta_thread.drop s.bta_thread.length

/-- The requests that the validation of `ScanFilterAddRemove` turns away: data
and mask both non-empty with different lengths (line 368), or a filter type
that is none of the `case` labels (line 440). -/
def Request.rejected (K : Env) : Request → Prop
  | .ScanFilterAddRemove _ _ filt_type _ _ _ _ _ _ _ data mask =>
    (data.length ≠ mask.length ∧ data.length ≠ 0 ∧ mask.length ≠ 0) ∨
      ∀ x ∈ K.filterLabels, filt_type ≠ (x : Int)
  | _ => False

/-- The values the stack passes to a completion continuation. -/
structure StackReply where
  client_id : Nat
  avbl_space : Nat
  action : Nat
  status : Nat
  report_format : Nat
  num_records : Nat
  data : List Nat

/-- The tasks posted to the client thread when the stack completes a task and
calls the completion continuation bound in it with the values of the reply (a
task without a completion continuation posts nothing). -/
def BtaTask.complete (rep : StackReply) : BtaTask → List JniTask
  | .BTA_GATTC_AppRegister cb => cb rep.client_id rep.status
  | .BTA_GATTC_AppDeregister _ => []
  | .BTA_DmBleObserve _ _ _ => []
  | .BTM_BleTrackAdvertiser _ _ => []
  | .BTM_BleAdvFilterParamSetup _ _ _ cb => cb rep.avbl_space rep.action rep.status
  | .BTM_LE_PF_addr_filter _ _ _ cb => cb rep.avbl_space rep.action rep.status
  | .BTM_LE_PF_srvc_data _ _ => []
  | .BTM_LE_PF_uuid_filter _ _ _ _ _ _ cb => cb rep.avbl_space rep.action rep.status
  | .BTM_LE_PF_local_name _ _ _ cb => cb rep.avbl_space rep.action rep.status
  | .BTM_LE_PF_manu_data _ _ _ _ _ _ cb => cb rep.avbl_space rep.action rep.status
  | .BTM_LE_PF_srvc_data_pattern _ _ _ _ cb => cb rep.avbl_space rep.action rep.status
  | .BTM_LE_PF_clear _ cb => cb rep.avbl_space rep.action rep.status
  | .BTM_BleEnableDisableFilterFeature _ cb => cb rep.action rep.status
  | .BTM_BleSetScanParams _ _ _ _ cb => cb rep.client_id rep.status
  | .BTM_BleSetStorageConfig _ _ _ cb _ _ => cb rep.status
  | .BTM_BleEnableBatchScan _ _ _ _ _ cb => cb rep.status
  | .BTM_BleDisableBatchScan cb => cb rep.status
  | .BTM_BleReadScanReports _ cb => cb rep.status rep.report_format rep.num_records rep.data

/-- The completion continuation of type `tBTM_BLE_PF_CFG_CBACK` that a filter
command carries, if it carries one. -/
def BtaTask.cfg_cback : BtaTask → Option tBTM_BLE_PF_CFG_CBACK
  | .BTM_LE_PF_addr_filter _ _ _ cb => some cb
  | .BTM_LE_PF_uuid_filter _ _ _ _ _ _ cb => some cb
  | .BTM_LE_PF_local_name _ _ _ cb => some cb
  | .BTM_LE_PF_manu_data _ _ _ _ _ _ cb => some cb
  | .BTM_LE_PF_srvc_data_pattern _ _ _ _ cb => some cb
  | .BTM_LE_PF_clear _ cb => some cb
  | _ => none

/-- The client callbacks posted when the stack completes, with the reply, the
tasks that a call has enqueued. -/
def Request.completions (K : Env) (cbs : Option btgatt_callbacks_t) (r : Request) (s : State)
    (rep : StackReply) : List JniTask :=
  (r.enqueued K cbs s).flatMap (BtaTask.complete rep)

/-- The status argument of a posted client callback, as the integer the client
receives; `none` for a callback without a status. -/
def JniTask.status : JniTask → Option Nat
  | .scan_parameter_setup_completed_cb _ status => some status.toNat
  | .scan_filter_cfg_cb _ _ status _ _ => some status
  | .scan_filter_param_cb _ _ status _ => some status
  | .scan_filter_status_cb _ _ status => some status
  | .batchscan_reports_cb _ status _ _ _ => some status
  | .batchscan_cfg_storage_cb _ status => some status
  | .batchscan_enb_disable_cb _ _ status => some status
  | .register_cb _ _ status => some status
  | .batchscan_threshold_cb _ => none
  | .track_adv_event_cb _ => none
  | .bta_scan_results_cb_impl _ _ _ _ _ => none

/-- A callback table in which every scanner callback is installed. -/
def installed : Option btgatt_callbacks_t :=
  some { scanner :=
    { scan_result_cb := true, batchscan_cfg_storage_cb := true,
      batchscan_enb_disable_cb := true, batchscan_reports_cb := true,
      batchscan_threshold_cb := true, track_adv_event_cb := true,
      scan_parameter_setup_completed_cb := true, scan_filter_cfg_cb := true,
      scan_filter_param_cb := true, scan_filter_status_cb := true } }

/-- The macro constant `HCI_EXT_INQ_RESPONSE_LEN`. -/
def HCI_EXT_INQ_RESPONSE_LEN : Nat := 240

/-- Modelled from the spec: the helper `BTM_CheckEirData` lives in the stack
sources, outside this file. The payload is a sequence of length-prefixed typed
fields (one length byte, counting the type byte and the data; then the type
byte; then the data), closed by a zero length; the search returns the data of
the first field of the wanted type. `pos` is the offset of a type byte and
`length` the length byte read before it. -/
def checkEirLoop (p_eir : BytePtr) (type : Nat) : Nat → Nat → Nat → Option (List Nat)
  | 0, _, _ => none
  | fuel + 1, pos, length =>
    if length = 0 ∨ HCI_EXT_INQ_RESPONSE_LEN < pos then none
    else if p_eir pos = type then
      some ((List.range (length - 1)).map (fun i => p_eir (pos + 1 + i)))
    else checkEirLoop p_eir type fuel (pos + length + 1) (p_eir (pos + length))

/-- Modelled from the spec: the search of an EIR style payload for the first
field of a type (see `checkEirLoop`), started at the first length byte. -/
def checkEirData (p_eir : BytePtr) (type : Nat) : Option (List Nat) :=
  checkEirLoop p_eir type (HCI_EXT_INQ_RESPONSE_LEN + 2) 1 (p_eir 0)

/-- The values the enumerators and macros have in the headers of the stack and
of the HAL, used to instantiate the theorems. -/
def androidEnv : Env where
  BTM_SUCCESS := 0
  BTM_CMD_STARTED := 1
  BTM_BUSY := 2
  BTM_NO_RESOURCES := 3
  BTM_MODE_UNSUPPORTED := 4
  BTM_ILLEGAL_VALUE := 5
  BTM_WRONG_MODE := 6
  BTM_UNKNOWN_ADDR := 7
  BTM_DEVICE_TIMEOUT := 8
  BTM_BAD_VALUE_RET := 9
  BTM_ERR_PROCESSING := 10
  BTM_NOT_AUTHORIZED := 11
  BTM_DEV_RESET := 12
  BTM_CMD_STORED := 13
  BTM_ILLEGAL_ACTION := 14
  BTM_DELAY_CHECK := 15
  BTM_SCO_BAD_LENGTH := 16
  BTM_SUCCESS_NO_SECURITY := 17
  BTM_FAILED_ON_SECURITY := 18
  BTM_REPEATED_ATTEMPTS := 19
  BTM_MODE4_LEVEL4_NOT_SUPPORTED := 20
  BTM_BLE_PF_ADDR_FILTER := 0
  BTM_BLE_PF_SRVC_DATA := 1
  BTM_BLE_PF_SRVC_UUID := 2
  BTM_BLE_PF_SRVC_SOL_UUID := 3
  BTM_BLE_PF_LOCAL_NAME := 4
  BTM_BLE_PF_MANU_DATA := 5
  BTM_BLE_PF_SRVC_DATA_PATTERN := 6
  BTM_BLE_PF_TYPE_ALL := 7
  BTM_BLE_PF_LOGIC_AND := 1
  BTM_BLE_SCAN_MODE_ACTI := 1
  BLE_ADDR_RANDOM := 1
  BTM_EIR_COMPLETE_LOCAL_NAME_TYPE := 9
  BT_EIR_SHORTENED_LOCAL_NAME_TYPE := 8
  BTGATT_MAX_ATTR_LEN := 600
  BTA_DM_INQ_RES_EVT := 0
  BTA_DM_INQ_CMPL_EVT := 1
  BT_PROPERTY_TYPE_OF_DEVICE := 5
  sizeof_bt_device_type_t := 4
  to_tBTM_BLE_REF_VALUE := fun x => (x % (2 ^ 32 : Int)).toNat
  BTM_CheckEirData := checkEirData
  btif_to_bta_uuid := fun uuid => uuid
  btif_to_bta_uuid_mask := fun uuid_mask _ => uuid_mask
  btif_gatt_move_track_adv_data := fun data => data

/-- The number of units of work a call that passes validation hands to the
stack thread: two for `ScanFilterParamSetup` with a filter parameter whose
`dely_mode` is 1 (line 345), one otherwise. -/
def Request.units : Request → Nat
  | .ScanFilterParamSetup _ _ _ (some filt_param) => if filt_param.dely_mode = 1 then 2 else 1
  | _ => 1

/-! ## Concrete inputs -/

/-- The address `AA:BB:CC:DD:EE:FF`. -/
def addrA : bt_bdaddr_t := { address := [0xAA, 0xBB, 0xCC, 0xDD, 0xEE, 0xFF] }

/-- The address `AA:BB:CC:DD:FF:EE`: other bytes than `addrA`, the same sum. -/
def addrB : bt_bdaddr_t := { address := [0xAA, 0xBB, 0xCC, 0xDD, 0xFF, 0xEE] }

/-- An advertisement payload with one field: length 8, type 9 (complete local
name), data `Sensor1`. -/
def sensorPayload : List Nat := [8, 9, 83, 101, 110, 115, 111, 114, 49]

/-- The name `Sensor1` as bytes. -/
def sensorName : List Nat := [83, 101, 110, 115, 111, 114, 49]

/-- An advertisement payload with one field: length 2, type 1 (flags), data 6;
it has no name field. -/
def flagsPayload : List Nat := [2, 1, 6]

/-- The 62 bytes read at a pointer to `sensorPayload` followed by zeros. -/
def sensorEir : List Nat := (List.range 62).map (vector_data sensorPayload)

/-- An inquiry result event for `addrA` (public address type 0, device type 2,
rssi -60) whose `p_eir` points to `sensorPayload` followed by zeros. -/
def sensorEvent : tBTA_DM_SEARCH :=
  { inq_res :=
    { bd_addr := addrA.address, device_type := 2, rssi := -60, ble_addr_type := 0,
      p_eir := some (vector_data sensorPayload), remt_name_not_required := false } }

/-- A state with an empty cache and an empty queue of the stack thread. -/
def emptyState : State := { p_dev_cb := [], bta_thread := [] }

/-- A reply of the stack: client id 1, 5 free filter slots, action 2, status 3
(`BTM_NO_RESOURCES`), no report. -/
def sampleReply : StackReply :=
  { client_id := 1, avbl_space := 5, action := 2, status := 3, report_format := 0,
    num_records := 0, data := [] }

/-! ## Status translation: the table -/

theorem androidEnv_WF : androidEnv.WF := by
  decide


/-- C1: `btif_gattc_translate_btm_status` is total and returns, for every stack
status value, the documented API status: each named status gives the status of
its group, and every other value, `BTM_ERR_PROCESSING` included, gives
`BT_GATTC_ERR_PROCESSING`. -/
theorem translate_btm_status_table (K : Env) (hK : K.WF) (status : Nat) :
    (status = K.BTM_SUCCESS ∨ status = K.BTM_SUCCESS_NO_SECURITY →
      btif_gattc_translate_btm_status K status = .BT_GATTC_COMMAND_SUCCESS) ∧
    (status = K.BTM_CMD_STARTED →
      btif_gattc_translate_btm_status K status = .BT_GATTC_COMMAND_STARTED) ∧
    (status = K.BTM_BUSY →
      btif_gattc_translate_btm_status K status = .BT_GATTC_COMMAND_BUSY) ∧
    (status = K.BTM_CMD_STORED →
      btif_gattc_translate_btm_status K status = .BT_GATTC_COMMAND_STORED) ∧
    (status = K.BTM_NO_RESOURCES →
      btif_gattc_translate_btm_status K status = .BT_GATTC_NO_RESOURCES) ∧
    (status = K.BTM_MODE_UNSUPPORTED ∨ status = K.BTM_WRONG_MODE ∨
        status = K.BTM_MODE4_LEVEL4_NOT_SUPPORTED →
      btif_gattc_translate_btm_status K status = .BT_GATTC_MODE_UNSUPPORTED) ∧
    (status = K.BTM_ILLEGAL_VALUE ∨ status = K.BTM_SCO_BAD_LENGTH →
      btif_gattc_translate_btm_status K status = .BT_GATTC_ILLEGAL_VALUE) ∧
    (status = K.BTM_UNKNOWN_ADDR →
      btif_gattc_translate_btm_status K status = .BT_GATTC_UNKNOWN_ADDR) ∧
    (status = K.BTM_DEVICE_TIMEOUT →
      btif_gattc_translate_btm_status K status = .BT_GATTC_DEVICE_TIMEOUT) ∧
    (status = K.BTM_FAILED_ON_SECURITY ∨ status = K.BTM_REPEATED_ATTEMPTS ∨
        status = K.BTM_NOT_AUTHORIZED →
      btif_gattc_translate_btm_status K status = .BT_GATTC_SECURITY_ERROR) ∧
    (status = K.BTM_DEV_RESET ∨ status = K.BTM_ILLEGAL_ACTION →
      btif_gattc_translate_btm_status K status = .BT_GATTC_INCORRECT_STATE) ∧
    (status = K.BTM_BAD_VALUE_RET →
      btif_gattc_translate_btm_status K status = .BT_GATTC_INVALID_CONTROLLER_OUTPUT) ∧
    (status = K.BTM_DELAY_CHECK →
      btif_gattc_translate_btm_status K status = .BT_GATTC_DELAYED_ENCRYPTION_CHECK) ∧
    (status = K.BTM_ERR_PROCESSING →
      btif_gattc_translate_btm_status K status = .BT_GATTC_ERR_PROCESSING) ∧
    (status ∉ K.statusLabels →
      btif_gattc_translate_btm_status K status = .BT_GATTC_ERR_PROCESSING) := by
  obtain ⟨hS, -, -⟩ := hK
  have hR := List.nodup_reverse.mpr hS
  simp only [Env.statusLabels, List.nodup_cons, List.mem_cons, List.mem_singleton,
    List.not_mem_nil, not_or, List.nodup_nil, or_false, not_false_eq_true, and_true,
    List.reverse_cons, List.reverse_nil, List.nil_append, List.cons_append] at hS hR
  simp only [Env.statusLabels, List.mem_cons, List.mem_singleton, List.not_mem_nil,
    not_or, or_false]
  unfold btif_gattc_translate_btm_status
  refine ⟨?_, ?_, ?_, ?_, ?_, ?_, ?_, ?_, ?_, ?_, ?_, ?_, ?_, ?_, ?_⟩
  all_goals intro h
  all_goals first
    | (rcases h with rfl | rfl | rfl <;> simp only [hS, hR, if_true, if_false, or_false,
        false_or, or_true, true_or, or_self])
    | simp only [h, if_true, if_false, or_false, false_or, or_true, true_or, or_self]

/-- Witness of C1 for the enumerator values of the stack headers, at the status
`BTM_ERR_PROCESSING`. -/
theorem translate_btm_status_table_witness :
    androidEnv.WF ∧
      btif_gattc_translate_btm_status androidEnv 10 = .BT_GATTC_ERR_PROCESSING ∧
      btif_gattc_translate_btm_status androidEnv 17 = .BT_GATTC_COMMAND_SUCCESS :=
  ⟨androidEnv_WF,
    (translate_btm_status_table androidEnv androidEnv_WF 10).2.2.2.2.2.2.2.2.2.2.2.2.2.1 rfl,
    (translate_btm_status_table androidEnv androidEnv_WF 17).1 (Or.inr rfl)⟩

/-! ## Dispatch to the stack thread -/

theorem drop_do_in_bta_thread (t : BtaTask) (s : State) :
    (do_in_bta_thread t s).bta_thread.drop s.bta_thread.length = [t] := by
  simp [do_in_bta_thread]

theorem drop_do_in_bta_thread_twice (t u : BtaTask) (s : State) :
    (do_in_bta_thread u (do_in_bta_thread t s)).bta_thread.drop s.bta_thread.length = [t, u] := by
  simp [do_in_bta_thread]

theorem uint8_natCast (n : Nat) (h : n < 256) : uint8 (n : Int) = n := by
  unfold uint8
  have : ((n : Int) % 256) = n := by omega
  rw [this]; simp

theorem uint8_of_range (x : Int) (h0 : 0 ≤ x) (h1 : x < 256) : (uint8 x : Int) = x := by
  unfold uint8
  omega

/-- The tasks `ScanFilterParamSetup` enqueues: the registration of the
advertiser tracking callback when the filter parameter has `dely_mode` 1, then
the filter parameter setup. -/
theorem ScanFilterParamSetup_enqueued (K : Env) (cbs : Option btgatt_callbacks_t)
    (client_if action filt_index : Nat) (filt_param : Option btgatt_filt_param_setup_t)
    (s : State) :
    (ScanFilterParamSetup K cbs client_if action filt_index filt_param s).bta_thread.drop
        s.bta_thread.length =
      (if filt_param.isSome ∧ (filt_param.map (·.dely_mode)) = some 1 then
        [BtaTask.BTM_BleTrackAdvertiser (bta_track_adv_event_cb K cbs) client_if]
      else []) ++
        [BtaTask.BTM_BleAdvFilterParamSetup action filt_index filt_param
          (bta_scan_filt_param_setup_cb cbs client_if)] := by
  by_cases h : filt_param.isSome ∧ (filt_param.map (·.dely_mode)) = some 1
  · simp only [ScanFilterParamSetup, if_pos h]
    exact drop_do_in_bta_thread_twice _ _ _
  · simp only [ScanFilterParamSetup, if_neg h]
    exact drop_do_in_bta_thread _ _

/-- C2: a `ScanFilterAddRemove` request of any filter type and action whose
data and mask are both non-empty and of different lengths changes nothing: no
task is enqueued on the stack thread, and whatever the stack replies no
completion callback is posted to the client. -/
theorem ScanFilterAddRemove_length_mismatch (K : Env) (cbs : Option btgatt_callbacks_t)
    (client_if action filt_type filt_index company_id company_id_mask : Int)
    (p_uuid : bt_uuid_t) (p_uuid_mask : Option bt_uuid_t) (bd_addr : bt_bdaddr_t)
    (addr_type : Int) (data mask : List Nat) (s : State)
    (hd : data ≠ []) (hm : mask ≠ []) (hlen : data.length ≠ mask.length) :
    ScanFilterAddRemove K cbs client_if action filt_type filt_index company_id
        company_id_mask p_uuid p_uuid_mask bd_addr addr_type data mask s = s ∧
      (Request.ScanFilterAddRemove client_if action filt_type filt_index company_id
        company_id_mask p_uuid p_uuid_mask bd_addr addr_type data mask).enqueued K cbs s = [] ∧
      ∀ rep : StackReply,
        (Request.ScanFilterAddRemove client_if action filt_type filt_index company_id
          company_id_mask p_uuid p_uuid_mask bd_addr addr_type data mask).completions
            K cbs s rep = [] := by
  have hd0 : data.length ≠ 0 := fun h => hd (List.length_eq_zero.mp h)
  have hm0 : mask.length ≠ 0 := fun h => hm (List.length_eq_zero.mp h)
  have hs : ScanFilterAddRemove K cbs client_if action filt_type filt_index company_id
      company_id_mask p_uuid p_uuid_mask bd_addr addr_type data mask s = s := by
    unfold ScanFilterAddRemove
    rw [if_pos ⟨hlen, hd0, hm0⟩]
  refine ⟨hs, ?_, ?_⟩
  · simp [Request.enqueued, Request.call, hs]
  · intro rep
    simp [Request.completions, Request.enqueued, Request.call, hs]

/-- Witness of C2: the manufacturer-data filter with data `[0x01, 0x02]` and
mask `[0xFF]`. -/
theorem ScanFilterAddRemove_length_mismatch_witness :
    ([0x01, 0x02] : List Nat) ≠ [] ∧ ([0xFF] : List Nat) ≠ [] ∧
      ([0x01, 0x02] : List Nat).length ≠ ([0xFF] : List Nat).length ∧
      (Request.ScanFilterAddRemove 1 0 5 0 0x00E0 0xFFFF [] none addrA 0
        [0x01, 0x02] [0xFF]).enqueued androidEnv installed emptyState = [] ∧
      (Request.ScanFilterAddRemove 1 0 5 0 0x00E0 0xFFFF [] none addrA 0
        [0x01, 0x02] [0xFF]).completions androidEnv installed emptyState sampleReply = [] :=
  ⟨by decide, by decide, by decide,
    (ScanFilterAddRemove_length_mismatch androidEnv installed 1 0 5 0 0x00E0 0xFFFF [] none
      addrA 0 [0x01, 0x02] [0xFF] emptyState (by decide) (by decide) (by decide)).2.1,
    (ScanFilterAddRemove_length_mismatch androidEnv installed 1 0 5 0 0x00E0 0xFFFF [] none
      addrA 0 [0x01, 0x02] [0xFF] emptyState (by decide) (by decide) (by decide)).2.2
      sampleReply⟩

/-! ## Scan results and the seen-device cache -/

/-- The key-equality functor answers 0, that is false, for a key and itself. -/
theorem equal_to_self (x : bt_bdaddr_t) : equal_to x x = 0 := by
  have h : (List.range BD_ADDR_LEN).find?
      (fun i => x.address.getD i 0 != x.address.getD i 0) = none := by
    simp
  unfold equal_to memcmp
  rw [h]
  rfl

/-- For every address: once it is the only address stored in the cache, the
lookup of that same address answers false. -/
theorem find_inserted_alone (p_bda : List Nat) (addr_type : Nat) :
    btif_gattc_find_bdaddr p_bda (btif_gattc_add_remote_bdaddr p_bda addr_type []) = false := by
  simp [btif_gattc_find_bdaddr, btif_gattc_add_remote_bdaddr, unordered_set.insert,
    unordered_set.count, equal_to_self]

/-- The method `Scan` with `start` true empties the cache and then enqueues the
one start command; the cache does not depend on what it held before. -/
theorem Scan_start_clears (K : Env) (s : State) :
    (Scan K true s).p_dev_cb = [] ∧
      Scan K true s =
        do_in_bta_thread (.BTA_DmBleObserve true 0 (some (bta_scan_results_cb K)))
          { s with p_dev_cb := [] } ∧
      ∀ a : List Nat, btif_gattc_find_bdaddr a (Scan K true s).p_dev_cb = false := by
  refine ⟨?_, ?_, ?_⟩ <;>
    simp [Scan, do_in_bta_thread, btif_gattc_init_dev_cb, unordered_set.clear,
      btif_gattc_find_bdaddr, unordered_set.count]

/-- C5: for a scan-result event with a random address type and a payload
without a complete and without a shortened local name, the function
`bta_scan_results_cb_impl` leaves the seen-device cache as it is, makes no name
hand-off, and makes the device-type write, the address-type write and the scan
result callback with the address, rssi and payload of the event (the scan
result callback being installed). -/
theorem scan_result_random_without_name (K : Env) (cbs : btgatt_callbacks_t)
    (bd_addr : bt_bdaddr_t) (device_type : Nat) (rssi : Int) (addr_type : Nat)
    (value : List Nat) (p_dev_cb : unordered_set)
    (hcb : cbs.scanner.scan_result_cb = true)
    (hrandom : addr_type = K.BLE_ADDR_RANDOM)
    (hcomplete :
      K.BTM_CheckEirData (vector_data value) K.BTM_EIR_COMPLETE_LOCAL_NAME_TYPE = none)
    (hshort :
      K.BTM_CheckEirData (vector_data value) K.BT_EIR_SHORTENED_LOCAL_NAME_TYPE = none) :
    bta_scan_results_cb_impl K (some cbs) bd_addr device_type rssi addr_type value p_dev_cb =
      (p_dev_cb,
        [Effect.btif_storage_set_remote_device_property bd_addr
            { type := K.BT_PROPERTY_TYPE_OF_DEVICE, len := K.sizeof_bt_device_type_t,
              val := device_type },
         Effect.btif_storage_set_remote_addr_type bd_addr addr_type,
         Effect.scan_result_cb bd_addr rssi value]) := by
  simp [bta_scan_results_cb_impl, hcomplete, hshort, hrandom, HAL_CBACK, hcb]

/-- Witness of C5: the address `addrA` with random address type 1 and a
payload that holds a flags field only. -/
theorem scan_result_random_without_name_witness :
    bta_scan_results_cb_impl androidEnv installed addrA 2 (-60) 1 flagsPayload [addrB] =
      ([addrB],
        [Effect.btif_storage_set_remote_device_property addrA { type := 5, len := 4, val := 2 },
         Effect.btif_storage_set_remote_addr_type addrA 1,
         Effect.scan_result_cb addrA (-60) flagsPayload]) :=
  scan_result_random_without_name androidEnv _ addrA 2 (-60) 1 flagsPayload [addrB]
    rfl rfl (by decide) (by decide)

/-- C3, evaluated at the failing input: with an empty cache, two events for
the address `AA:BB:CC:DD:EE:FF` (public, name `Sensor1`) are processed one after
the other. After the first the lookup of the same address answers false, and
the second event makes the name hand-off again and stores the address a second
time; it makes the two property writes and the scan result callback as well. -/
theorem second_event_hands_off_again :
    (bta_scan_results_cb_impl androidEnv installed addrA 2 (-60) 0 sensorPayload []).1
        = [addrA] ∧
      btif_gattc_find_bdaddr addrA.address [addrA] = false ∧
      bta_scan_results_cb_impl androidEnv installed addrA 2 (-60) 0 sensorPayload [addrA] =
        ([addrA, addrA],
          [Effect.btif_dm_update_ble_remote_properties addrA.address (sensorName ++ [0]) 2,
           Effect.btif_storage_set_remote_device_property addrA
             { type := 5, len := 4, val := 2 },
           Effect.btif_storage_set_remote_addr_type addrA 0,
           Effect.scan_result_cb addrA (-60) sensorPayload]) := by
  refine ⟨?_, ?_, ?_⟩ <;> decide

/-- C4, evaluated at the failing input: the address `AA:BB:CC:DD:EE:FF` is in
the cache from the session before; `Scan(true)` empties the cache; in the new
session an event for `AA:BB:CC:DD:FF:EE` (public, no name) comes first and is
stored; the first event for `AA:BB:CC:DD:EE:FF` (public, name `Sensor1`) then
finds its address present: it is not stored and no name hand-off is made. -/
theorem next_session_event_suppressed :
    (Scan androidEnv true { p_dev_cb := [addrA], bta_thread := [] }).p_dev_cb = [] ∧
      (bta_scan_results_cb_impl androidEnv installed addrB 2 (-70) 0 flagsPayload []).1
        = [addrB] ∧
      btif_gattc_find_bdaddr addrA.address [addrB] = true ∧
      bta_scan_results_cb_impl androidEnv installed addrA 2 (-60) 0 sensorPayload [addrB] =
        ([addrB],
          [Effect.btif_storage_set_remote_device_property addrA
             { type := 5, len := 4, val := 2 },
           Effect.btif_storage_set_remote_addr_type addrA 0,
           Effect.scan_result_cb addrA (-60) sensorPayload]) := by
  refine ⟨?_, ?_, ?_, ?_⟩ <;> decide

/-- The payload posted by `bta_scan_results_cb` for an inquiry result: the
vector of `BTGATT_MAX_ATTR_LEN` zeros, with the 62 bytes at `p_eir` put in front
of it when `p_eir` is not NULL. -/
theorem bta_scan_results_cb_payload (K : Env) (p_data : tBTA_DM_SEARCH)
    (hev : K.BTA_DM_INQ_RES_EVT ≠ K.BTA_DM_INQ_CMPL_EVT) :
    ∃ bdaddr device_type rssi addr_type,
      (bta_scan_results_cb K K.BTA_DM_INQ_RES_EVT p_data).2 =
        [JniTask.bta_scan_results_cb_impl bdaddr device_type rssi addr_type
          (match p_data.inq_res.p_eir with
            | some p_eir => (List.range 62).map p_eir ++ List.replicate K.BTGATT_MAX_ATTR_LEN 0
            | none => List.replicate K.BTGATT_MAX_ATTR_LEN 0)] := by
  unfold bta_scan_results_cb
  cases hp : p_data.inq_res.p_eir with
  | none => simp [hev, hp, do_in_jni_thread]
  | some p_eir =>
    by_cases hn : (K.BTM_CheckEirData p_eir K.BTM_EIR_COMPLETE_LOCAL_NAME_TYPE).isSome = true <;>
      simp [hev, hp, hn, do_in_jni_thread, vector_insert_begin]

/-- The length of the payload posted by `bta_scan_results_cb` for an inquiry
result: `BTGATT_MAX_ATTR_LEN` without `p_eir`, and 62 more with it. -/
theorem bta_scan_results_cb_payload_length (K : Env) (p_data : tBTA_DM_SEARCH)
    (hev : K.BTA_DM_INQ_RES_EVT ≠ K.BTA_DM_INQ_CMPL_EVT) :
    ∃ bdaddr device_type rssi addr_type value,
      (bta_scan_results_cb K K.BTA_DM_INQ_RES_EVT p_data).2 =
        [JniTask.bta_scan_results_cb_impl bdaddr device_type rssi addr_type value] ∧
      value.length =
        if p_data.inq_res.p_eir.isSome then K.BTGATT_MAX_ATTR_LEN + 62
        else K.BTGATT_MAX_ATTR_LEN := by
  obtain ⟨bdaddr, device_type, rssi, addr_type, h⟩ := bta_scan_results_cb_payload K p_data hev
  refine ⟨bdaddr, device_type, rssi, addr_type, _, h, ?_⟩
  cases p_data.inq_res.p_eir <;> simp
  omega

/-- Every event processed by `bta_scan_results_cb_impl` ends with the scan
result callback, called with the address, rssi and payload of the event (the
callback being installed). -/
theorem bta_scan_results_cb_impl_forwards (K : Env) (cbs : btgatt_callbacks_t)
    (hcb : cbs.scanner.scan_result_cb = true) (bd_addr : bt_bdaddr_t) (device_type : Nat)
    (rssi : Int) (addr_type : Nat) (value : List Nat) (p_dev_cb : unordered_set) :
    (bta_scan_results_cb_impl K (some cbs) bd_addr device_type rssi addr_type value
        p_dev_cb).2.getLast? = some (Effect.scan_result_cb bd_addr rssi value) := by
  simp [bta_scan_results_cb_impl, HAL_CBACK, hcb]

/-- C8, evaluated at the failing input: an inquiry result for `addrA` whose
`p_eir` points to the payload `sensorPayload`. The payload posted for the client
is the 62 bytes at `p_eir` followed by all 600 (`BTGATT_MAX_ATTR_LEN`) zeros of
the vector: 662 bytes, more than the maximum; and `bta_scan_results_cb_impl`
passes these 662 bytes to the scan result callback. -/
theorem inquiry_result_payload_exceeds_maximum :
    (bta_scan_results_cb androidEnv androidEnv.BTA_DM_INQ_RES_EVT sensorEvent).2 =
        [JniTask.bta_scan_results_cb_impl addrA 2 (-60) 0
          (sensorEir ++ List.replicate 600 0)] ∧
      (sensorEir ++ List.replicate 600 0).length = 662 ∧
      androidEnv.BTGATT_MAX_ATTR_LEN = 600 ∧
      (bta_scan_results_cb_impl androidEnv installed addrA 2 (-60) 0
          (sensorEir ++ List.replicate 600 0) []).2.getLast? =
        some (Effect.scan_result_cb addrA (-60) (sensorEir ++ List.replicate 600 0)) := by
  refine ⟨?_, ?_, rfl, ?_⟩
  · rfl
  · simp only [sensorEir, List.length_append, List.length_map, List.length_range,
      List.length_replicate]
  · exact bta_scan_results_cb_impl_forwards androidEnv _ rfl addrA 2 (-60) 0 _ []

/-! ## Completions -/

/-- C6 (as stated) fails: the completion of a filter configuration command
(here `ScanFilterClear` for client 1) to which the stack reports status 3
(`BTM_NO_RESOURCES`) posts the filter configuration callback with status 3, while
the translation of 3 is `BT_GATTC_NO_RESOURCES`, of value 4. Likewise the statuses
0 and 17, which the translation maps to one API status, are delivered as 0 and
17 by the batch-scan enable completion. -/
theorem completion_status_not_translated :
    (Request.ScanFilterClear 1 0).completions androidEnv installed emptyState sampleReply =
        [JniTask.scan_filter_cfg_cb 2 1 3 7 5] ∧
      (JniTask.scan_filter_cfg_cb 2 1 3 7 5).status = some 3 ∧
      (btif_gattc_translate_btm_status androidEnv sampleReply.status).toNat = 4 ∧
      btif_gattc_translate_btm_status androidEnv 0 =
        btif_gattc_translate_btm_status androidEnv 17 ∧
      BatchscanEnable_cb installed 1 0 = [JniTask.batchscan_enb_disable_cb 1 1 0] ∧
      BatchscanEnable_cb installed 1 17 = [JniTask.batchscan_enb_disable_cb 1 1 17] := by
  refine ⟨?_, ?_, ?_, ?_, ?_, ?_⟩ <;> decide

/-- C6 (amended): with every scanner callback installed, the completion of the
scan-parameter setup posts its callback with the translation
(`btif_gattc_translate_btm_status`) of the status the stack reported; the
completions of filter configuration, filter-parameter setup, filter enable,
batch-scan storage configuration, batch-scan enable, batch-scan disable and
batch-scan report read post their callback with the status the stack reported,
unchanged. -/
theorem completion_status_delivery (K : Env) (s : State) (rep : StackReply)
    (client_if a b c d e : Int) (enable : Bool) (client_if8 action8 filt_index8 : Nat)
    (filt_param : Option btgatt_filt_param_setup_t) :
    (Request.SetScanParameters client_if a b).completions K installed s rep =
        [JniTask.scan_parameter_setup_completed_cb rep.client_id
          (btif_gattc_translate_btm_status K rep.status)] ∧
      (∀ filt_type client avbl_space action status,
        bta_scan_filt_cfg_cb installed filt_type client avbl_space action status =
          [JniTask.scan_filter_cfg_cb action client status filt_type avbl_space]) ∧
      (Request.ScanFilterClear client_if a).completions K installed s rep =
        [JniTask.scan_filter_cfg_cb rep.action (uint8 client_if) rep.status
          (uint8 K.BTM_BLE_PF_TYPE_ALL) rep.avbl_space] ∧
      (Request.ScanFilterParamSetup client_if8 action8 filt_index8 filt_param).completions
          K installed s rep =
        [JniTask.scan_filter_param_cb rep.action client_if8 rep.status rep.avbl_space] ∧
      (Request.ScanFilterEnable client_if enable).completions K installed s rep =
        [JniTask.scan_filter_status_cb rep.action (K.to_tBTM_BLE_REF_VALUE client_if)
          rep.status] ∧
      (Request.BatchscanConfigStorage client_if a b c).completions K installed s rep =
        [JniTask.batchscan_cfg_storage_cb client_if rep.status] ∧
      (Request.BatchscanEnable client_if a b c d e).completions K installed s rep =
        [JniTask.batchscan_enb_disable_cb 1 client_if rep.status] ∧
      (Request.BatchscanDisable client_if).completions K installed s rep =
        [JniTask.batchscan_enb_disable_cb 1 client_if rep.status] ∧
      (Request.BatchscanReadReports client_if a).completions K installed s rep =
        [JniTask.batchscan_reports_cb client_if rep.status rep.report_format rep.num_records
          rep.data] := by
  refine ⟨?_, ?_, ?_, ?_, ?_, ?_, ?_, ?_, ?_⟩
  · simp [Request.completions, Request.enqueued, Request.call, SetScanParameters,
      drop_do_in_bta_thread, BtaTask.complete, bta_scan_param_setup_cb, SCAN_CBACK_IN_JNI,
      installed, do_in_jni_thread]
  · intros
    simp [bta_scan_filt_cfg_cb, SCAN_CBACK_IN_JNI, installed, do_in_jni_thread]
  · simp [Request.completions, Request.enqueued, Request.call, ScanFilterClear,
      drop_do_in_bta_thread, BtaTask.complete, bta_scan_filt_cfg_cb, SCAN_CBACK_IN_JNI,
      installed, do_in_jni_thread]
  · simp only [Request.completions, Request.enqueued, Request.call,
      ScanFilterParamSetup_enqueued]
    by_cases h : filt_param.isSome ∧ (filt_param.map (·.dely_mode)) = some 1
    · rw [if_pos h]
      simp [BtaTask.complete, bta_scan_filt_param_setup_cb, SCAN_CBACK_IN_JNI, installed,
        do_in_jni_thread]
    · rw [if_neg h]
      simp [BtaTask.complete, bta_scan_filt_param_setup_cb, SCAN_CBACK_IN_JNI, installed,
        do_in_jni_thread]
  · simp [Request.completions, Request.enqueued, Request.call, ScanFilterEnable,
      drop_do_in_bta_thread, BtaTask.complete, bta_scan_filt_status_cb, SCAN_CBACK_IN_JNI,
      installed, do_in_jni_thread]
  · simp [Request.completions, Request.enqueued, Request.call, BatchscanConfigStorage,
      drop_do_in_bta_thread, BtaTask.complete, BatchscanConfigStorage_cb, SCAN_CBACK_IN_JNI,
      installed, do_in_jni_thread]
  · simp [Request.completions, Request.enqueued, Request.call, BatchscanEnable,
      drop_do_in_bta_thread, BtaTask.complete, BatchscanEnable_cb, SCAN_CBACK_IN_JNI,
      installed, do_in_jni_thread]
  · simp [Request.completions, Request.enqueued, Request.call, BatchscanDisable,
      drop_do_in_bta_thread, BtaTask.complete, BatchscanDisable_cb, SCAN_CBACK_IN_JNI,
      installed, do_in_jni_thread]
  · simp [Request.completions, Request.enqueued, Request.call, BatchscanReadReports,
      drop_do_in_bta_thread, BtaTask.complete, bta_batch_scan_reports_cb, SCAN_CBACK_IN_JNI,
      installed, do_in_jni_thread]

/-- C10: for every client id and every status the stack reports, the
completion of `BatchscanDisable` posts the batch-scan enable/disable callback
with action 1, the client id and the status, which is the very tuple the
completion of `BatchscanEnable` posts for that client id and status; with any
callback table the two continuations are the same function. -/
theorem BatchscanDisable_completion_as_enable (K : Env) (s : State) (rep : StackReply)
    (client_if scan_mode scan_interval scan_window addr_type discard_rule : Int) :
    (Request.BatchscanDisable client_if).completions K installed s rep =
        [JniTask.batchscan_enb_disable_cb 1 client_if rep.status] ∧
      (Request.BatchscanEnable client_if scan_mode scan_interval scan_window addr_type
          discard_rule).completions K installed s rep =
        (Request.BatchscanDisable client_if).completions K installed s rep ∧
      ∀ (cbs : Option btgatt_callbacks_t) (status : Nat),
        BatchscanDisable_cb cbs client_if status = BatchscanEnable_cb cbs client_if status := by
  refine ⟨?_, ?_, ?_⟩
  · simp [Request.completions, Request.enqueued, Request.call, BatchscanDisable,
      drop_do_in_bta_thread, BtaTask.complete, BatchscanDisable_cb, SCAN_CBACK_IN_JNI,
      installed, do_in_jni_thread]
  · simp [Request.completions, Request.enqueued, Request.call, BatchscanDisable,
      BatchscanEnable, drop_do_in_bta_thread, BtaTask.complete, BatchscanDisable_cb,
      BatchscanEnable_cb]
  · intro cbs status
    rfl

/-! ## Units of work per call -/

/-- C9 (as stated) fails: `ScanFilterParamSetup` with a filter parameter whose
`dely_mode` is 1 is not turned away by any validation and enqueues two units of
work on the stack thread, the registration of the advertiser tracking callback
and the filter parameter setup. -/
theorem ScanFilterParamSetup_enqueues_two :
    ¬ (Request.ScanFilterParamSetup 1 0 0 (some { dely_mode := 1 })).rejected androidEnv ∧
      ((Request.ScanFilterParamSetup 1 0 0 (some { dely_mode := 1 })).enqueued androidEnv
        installed emptyState).length = 2 ∧
      (Request.ScanFilterParamSetup 1 0 0 (some { dely_mode := 1 })).enqueued androidEnv
          installed emptyState =
        [BtaTask.BTM_BleTrackAdvertiser (bta_track_adv_event_cb androidEnv installed) 1,
         BtaTask.BTM_BleAdvFilterParamSetup 0 0 (some { dely_mode := 1 })
           (bta_scan_filt_param_setup_cb installed 1)] := by
  refine ⟨?_, ?_, ?_⟩
  · simp [Request.rejected]
  · rfl
  · rfl

/-- C9 (amended): every call of a mutating method that validation does not turn
away appends to the queue of the stack thread exactly one unit of work, except
`ScanFilterParamSetup` with a filter parameter whose `dely_mode` is 1, which
appends exactly two. -/
theorem call_enqueues_units (K : Env) (cbs : Option btgatt_callbacks_t) (r : Request)
    (s : State) (hr : ¬ r.rejected K) :
    (r.call K cbs s).bta_thread = s.bta_thread ++ r.enqueued K cbs s ∧
      (r.enqueued K cbs s).length = r.units := by
  cases r with
  | RegisterScanner cb =>
    simp [Request.enqueued, Request.call, Request.units, RegisterScanner, do_in_bta_thread]
  | Unregister scanner_id =>
    simp [Request.enqueued, Request.call, Request.units, Unregister, do_in_bta_thread]
  | Scan start =>
    cases start <;>
      simp [Request.enqueued, Request.call, Request.units, Scan, do_in_bta_thread]
  | ScanFilterParamSetup client_if action filt_index filt_param =>
    cases filt_param with
    | none =>
      simp [Request.enqueued, Request.call, Request.units, ScanFilterParamSetup,
        do_in_bta_thread]
    | some fp =>
      by_cases hd : fp.dely_mode = 1 <;>
        simp [Request.enqueued, Request.call, Request.units, ScanFilterParamSetup,
          do_in_bta_thread, hd]
  | ScanFilterAddRemove client_if action filt_type filt_index company_id company_id_mask
      p_uuid p_uuid_mask bd_addr addr_type data mask =>
    simp only [Request.rejected, not_or, not_forall, not_not] at hr
    obtain ⟨hlen, x, hx, hft⟩ := hr
    simp only [Env.filterLabels, List.mem_cons, List.mem_singleton, List.not_mem_nil,
      or_false] at hx
    simp only [Request.enqueued, Request.call, Request.units, ScanFilterAddRemove,
      if_neg hlen]
    split_ifs with h1 h2 h3 h4 h5 h6
    · simp [do_in_bta_thread]
    · simp [do_in_bta_thread]
    · cases p_uuid_mask <;> simp [do_in_bta_thread]
    · simp [do_in_bta_thread]
    · simp [do_in_bta_thread]
    · simp [do_in_bta_thread]
    · exfalso
      subst hft
      rcases hx with rfl | rfl | rfl | rfl | rfl | rfl | rfl
      · exact h1 rfl
      · exact h2 rfl
      · exact h3 (Or.inl rfl)
      · exact h3 (Or.inr rfl)
      · exact h4 rfl
      · exact h5 rfl
      · exact h6 rfl
  | ScanFilterClear client_if filter_index =>
    simp [Request.enqueued, Request.call, Request.units, ScanFilterClear, do_in_bta_thread]
  | ScanFilterEnable client_if enable =>
    simp [Request.enqueued, Request.call, Request.units, ScanFilterEnable, do_in_bta_thread]
  | SetScanParameters client_if scan_interval scan_window =>
    simp [Request.enqueued, Request.call, Request.units, SetScanParameters, do_in_bta_thread]
  | BatchscanConfigStorage client_if a b c =>
    simp [Request.enqueued, Request.call, Request.units, BatchscanConfigStorage,
      do_in_bta_thread]
  | BatchscanEnable client_if a b c d e =>
    simp [Request.enqueued, Request.call, Request.units, BatchscanEnable, do_in_bta_thread]
  | BatchscanDisable client_if =>
    simp [Request.enqueued, Request.call, Request.units, BatchscanDisable, do_in_bta_thread]
  | BatchscanReadReports client_if scan_mode =>
    simp [Request.enqueued, Request.call, Request.units, BatchscanReadReports,
      do_in_bta_thread]

/-- Witness of C9 (amended): a well-formed manufacturer-data filter request
enqueues one unit of work, and `ScanFilterParamSetup` with `dely_mode` 1 two. -/
theorem call_enqueues_units_witness :
    ((Request.ScanFilterAddRemove 1 0 5 0 0x00E0 0xFFFF [] none addrA 0 [0x01, 0x02]
        [0xFF, 0xFF]).enqueued androidEnv installed emptyState).length = 1 ∧
      ((Request.ScanFilterParamSetup 1 0 0 (some { dely_mode := 1 })).enqueued androidEnv
        installed emptyState).length = 2 :=
  ⟨(call_enqueues_units androidEnv installed
      (Request.ScanFilterAddRemove 1 0 5 0 0x00E0 0xFFFF [] none addrA 0 [0x01, 0x02]
        [0xFF, 0xFF]) emptyState
      (by simp [Request.rejected, Env.filterLabels, androidEnv])).2,
    (call_enqueues_units androidEnv installed
      (Request.ScanFilterParamSetup 1 0 0 (some { dely_mode := 1 })) emptyState
      (by simp [Request.rejected])).2⟩

/-! ## Filter configuration -/

/-- C7 (as stated) fails: a service-data filter request (filter type 1) with
empty data and mask passes the length check and has a known filter type, and the
one command it enqueues, `BTM_LE_PF_srvc_data(action, filt_index)`, carries no
completion continuation: nothing is reported to the client when it completes.
Further, a manufacturer-data request with client id 261 reports client id 5. -/
theorem service_data_filter_without_continuation :
    ¬ (Request.ScanFilterAddRemove 1 0 1 0 0 0 [] none addrA 0 [] []).rejected androidEnv ∧
      (Request.ScanFilterAddRemove 1 0 1 0 0 0 [] none addrA 0 [] []).enqueued androidEnv
          installed emptyState = [BtaTask.BTM_LE_PF_srvc_data 0 0] ∧
      (BtaTask.BTM_LE_PF_srvc_data 0 0).cfg_cback.isNone = true ∧
      (Request.ScanFilterAddRemove 1 0 1 0 0 0 [] none addrA 0 [] []).completions androidEnv
          installed emptyState sampleReply = [] ∧
      (Request.ScanFilterAddRemove 261 0 5 0 0x00E0 0xFFFF [] none addrA 0 [0x01, 0x02]
          [0xFF, 0xFF]).completions androidEnv installed emptyState sampleReply =
        [JniTask.scan_filter_cfg_cb 2 5 3 5 5] := by
  refine ⟨?_, ?_, ?_, ?_, ?_⟩
  · simp [Request.rejected, Env.filterLabels, androidEnv]
  · rfl
  · rfl
  · decide
  · decide

/-- C7 (amended): a `ScanFilterAddRemove` request that passes the length check
and has a known filter type other than service data (address, service UUID,
service-solicitation UUID, local name, manufacturer data, service-data pattern)
enqueues one command that carries a completion continuation bound to the
filter type and to the client id narrowed to 8 bits (the client id itself when
it lies in 0..255); called by the stack with `(avbl_space, action, status)`, the
continuation posts the filter configuration callback with that action, the bound
client id, that status, the filter type and `avbl_space` unmodified (the callback
being installed). A service-data request enqueues one command without a
continuation, and its completion posts nothing. -/
theorem ScanFilterAddRemove_continuation (K : Env) (hK : K.WF)
    (client_if action filt_index company_id company_id_mask : Int) (filt_type : Nat)
    (p_uuid : bt_uuid_t) (p_uuid_mask : Option bt_uuid_t) (bd_addr : bt_bdaddr_t)
    (addr_type : Int) (data mask : List Nat) (s : State)
    (hlen : ¬ (data.length ≠ mask.length ∧ data.length ≠ 0 ∧ mask.length ≠ 0))
    (hknown : filt_type ∈ K.filterLabels) :
    (filt_type ≠ K.BTM_BLE_PF_SRVC_DATA →
      (∃ task cb,
        (Request.ScanFilterAddRemove client_if action filt_type filt_index company_id
          company_id_mask p_uuid p_uuid_mask bd_addr addr_type data mask).enqueued
            K installed s = [task] ∧
        task.cfg_cback = some cb ∧
        ∀ avbl_space act status,
          cb avbl_space act status =
            [JniTask.scan_filter_cfg_cb act (uint8 client_if) status filt_type avbl_space]) ∧
      ∀ rep : StackReply,
        (Request.ScanFilterAddRemove client_if action filt_type filt_index company_id
          company_id_mask p_uuid p_uuid_mask bd_addr addr_type data mask).completions
            K installed s rep =
          [JniTask.scan_filter_cfg_cb rep.action (uint8 client_if) rep.status filt_type
            rep.avbl_space]) ∧
    (filt_type = K.BTM_BLE_PF_SRVC_DATA →
      (Request.ScanFilterAddRemove client_if action filt_type filt_index company_id
        company_id_mask p_uuid p_uuid_mask bd_addr addr_type data mask).enqueued
          K installed s = [BtaTask.BTM_LE_PF_srvc_data action filt_index] ∧
      ∀ rep : StackReply,
        (Request.ScanFilterAddRemove client_if action filt_type filt_index company_id
          company_id_mask p_uuid p_uuid_mask bd_addr addr_type data mask).completions
            K installed s rep = []) ∧
    (0 ≤ client_if → client_if < 256 → (uint8 client_if : Int) = client_if) := by
  obtain ⟨-, hF, hB⟩ := hK
  have hR := List.nodup_reverse.mpr hF
  simp only [Env.filterLabels, List.nodup_cons, List.mem_cons, List.mem_singleton,
    List.not_mem_nil, not_or, List.nodup_nil, or_false, not_false_eq_true, and_true,
    List.reverse_cons, List.reverse_nil, List.nil_append, List.cons_append,
    forall_eq_or_imp, forall_eq] at hF hR hB hknown
  refine ⟨?_, ?_, uint8_of_range client_if⟩
  · intro hne
    rcases hknown with rfl | rfl | rfl | rfl | rfl | rfl | rfl
    · simp only [Request.completions, Request.enqueued, Request.call, ScanFilterAddRemove,
        if_neg hlen, Nat.cast_inj, hF, hR, if_true, if_false, or_false, false_or, or_true,
        true_or, or_self, drop_do_in_bta_thread]
      simp [BtaTask.cfg_cback, BtaTask.complete, bta_scan_filt_cfg_cb, SCAN_CBACK_IN_JNI,
        installed, do_in_jni_thread, uint8_natCast, hB]
    · exact absurd rfl hne
    · cases p_uuid_mask <;>
      (simp only [Request.completions, Request.enqueued, Request.call, ScanFilterAddRemove,
        if_neg hlen, Nat.cast_inj, hF, hR, if_true, if_false, or_false, false_or, or_true,
        true_or, or_self, drop_do_in_bta_thread]
       simp [BtaTask.cfg_cback, BtaTask.complete, bta_scan_filt_cfg_cb, SCAN_CBACK_IN_JNI,
         installed, do_in_jni_thread, uint8_natCast, hB])
    · cases p_uuid_mask <;>
      (simp only [Request.completions, Request.enqueued, Request.call, ScanFilterAddRemove,
        if_neg hlen, Nat.cast_inj, hF, hR, if_true, if_false, or_false, false_or, or_true,
        true_or, or_self, drop_do_in_bta_thread]
       simp [BtaTask.cfg_cback, BtaTask.complete, bta_scan_filt_cfg_cb, SCAN_CBACK_IN_JNI,
         installed, do_in_jni_thread, uint8_natCast, hB])
    · simp only [Request.completions, Request.enqueued, Request.call, ScanFilterAddRemove,
        if_neg hlen, Nat.cast_inj, hF, hR, if_true, if_false, or_false, false_or, or_true,
        true_or, or_self, drop_do_in_bta_thread]
      simp [BtaTask.cfg_cback, BtaTask.complete, bta_scan_filt_cfg_cb, SCAN_CBACK_IN_JNI,
        installed, do_in_jni_thread, uint8_natCast, hB]
    · simp only [Request.completions, Request.enqueued, Request.call, ScanFilterAddRemove,
        if_neg hlen, Nat.cast_inj, hF, hR, if_true, if_false, or_false, false_or, or_true,
        true_or, or_self, drop_do_in_bta_thread]
      simp [BtaTask.cfg_cback, BtaTask.complete, bta_scan_filt_cfg_cb, SCAN_CBACK_IN_JNI,
        installed, do_in_jni_thread, uint8_natCast, hB]
    · simp only [Request.completions, Request.enqueued, Request.call, ScanFilterAddRemove,
        if_neg hlen, Nat.cast_inj, hF, hR, if_true, if_false, or_false, false_or, or_true,
        true_or, or_self, drop_do_in_bta_thread]
      simp [BtaTask.cfg_cback, BtaTask.complete, bta_scan_filt_cfg_cb, SCAN_CBACK_IN_JNI,
        installed, do_in_jni_thread, uint8_natCast, hB]
  · rintro rfl
    simp only [Request.completions, Request.enqueued, Request.call, ScanFilterAddRemove,
      if_neg hlen, Nat.cast_inj, hF, hR, if_true, if_false, or_false, false_or, or_true,
      true_or, or_self, drop_do_in_bta_thread]
    simp [BtaTask.cfg_cback, BtaTask.complete, bta_scan_filt_cfg_cb, SCAN_CBACK_IN_JNI,
      installed, do_in_jni_thread, uint8_natCast, hB]

/-- Witness of C7 (amended): the manufacturer-data filter request of client 1
with data `[0x01, 0x02]` and mask `[0xFF, 0xFF]`, completed by the stack with 5
free slots, action 2 and status 3. -/
theorem ScanFilterAddRemove_continuation_witness :
    androidEnv.WF ∧ 5 ∈ androidEnv.filterLabels ∧
      (Request.ScanFilterAddRemove 1 0 ((5 : Nat) : Int) 0 0x00E0 0xFFFF [] none addrA 0
          [0x01, 0x02] [0xFF, 0xFF]).completions androidEnv installed emptyState sampleReply =
        [JniTask.scan_filter_cfg_cb 2 1 3 5 5] :=
  ⟨androidEnv_WF, by decide,
    ((ScanFilterAddRemove_continuation androidEnv androidEnv_WF 1 0 0 0x00E0 0xFFFF 5 [] none
      addrA 0 [0x01, 0x02] [0xFF, 0xFF] emptyState (by decide) (by decide)).1
        (by decide)).2 sampleReply⟩

end BleScanner
